import Mathlib

/-!
A shallow embedding of `src/hbbs_http/http_client.rs` (the adaptive
TLS-backend selection subsystem) together with theorems settling the
specification claims about it.

The embedding mirrors the Rust source function by function:

* `configure_http_client` embeds the `configure_http_client!` macro body
  (client builder with proxy resolution); the sync and async Rust entry
  points instantiate the same macro, so both are embedded by the same
  Lean function on a `Client` record of applied settings.
* `get_url_for_tls` embeds the canonicalization of the TLS-relevant URL.
* `create_http_client_with_url_` / `create_http_client_async_with_url_`
  embed the two recursive fallback orchestrators.  The Rust tail
  recursion is embedded as a fuel-bounded loop (the theorems show that
  from the public entry points two units of fuel already make the result
  fuel-independent, i.e. the Rust recursion terminates there).
* Probe outcomes (`client.head(url).send()`) are external network events;
  they are embedded as an input stream `Nat → ProbeOutcome`, consumed one
  outcome per probe, and the orchestrator records every probe it performs
  (target URL and the configuration of the client probed).
* The process-wide TLS cache and the proxy configuration types live in
  the external crate `hbb_common`, not in this repository's sources;
  they are modelled from the spec where noted.
-/

namespace HttpClient

/-- TLS backend selector, mirroring `hbb_common::tls::TlsType`:
`Plain` (no TLS layer), `NativeTls` (platform-native stack, the spec's
`PrimaryStack`), `Rustls` (bundled stack, the spec's `PortableStack`). -/
inductive TlsType where
  | Plain
  | NativeTls
  | Rustls
deriving DecidableEq, Repr

/-- Association-list lookup used by the cache model (first hit wins, so a
consed write is last-write-wins). -/
def lookupKey {α : Type} : List (String × α) → String → Option α
  | [], _ => none
  | (k, v) :: rest, u => if k = u then some v else lookupKey rest u

/-- Modelled from the spec: the process-wide TLS cache of
`hbb_common::tls` (missing from `src/`) — two independent, idempotent,
last-write-wins maps from a canonicalized URL to the TLS backend and to
the accept-invalid-certificate mode (spec §4.1). -/
structure TlsCache where
  tlsType : List (String × TlsType)
  acceptInvalid : List (String × Bool)
deriving DecidableEq, Repr

/-- Modelled from the spec: `hbb_common::tls::get_cached_tls_type`. -/
def get_cached_tls_type (c : TlsCache) (url : String) : Option TlsType :=
  lookupKey c.tlsType url

/-- Modelled from the spec: `hbb_common::tls::get_cached_tls_accept_invalid_cert`. -/
def get_cached_tls_accept_invalid_cert (c : TlsCache) (url : String) : Option Bool :=
  lookupKey c.acceptInvalid url

/-- Modelled from the spec: `hbb_common::tls::upsert_tls_type`
(independent single-key write, last-write-wins). -/
def upsert_tls_type (c : TlsCache) (url : String) (t : TlsType) : TlsCache :=
  { c with tlsType := (url, t) :: c.tlsType }

/-- Modelled from the spec: `hbb_common::tls::upsert_tls_accept_invalid_cert`. -/
def upsert_tls_accept_invalid_cert (c : TlsCache) (url : String) (b : Bool) : TlsCache :=
  { c with acceptInvalid := (url, b) :: c.acceptInvalid }

/-- String prefix test embedding Rust's `str::starts_with`, stated on the
character list of the string. -/
def starts_with (s p : String) : Bool :=
  p.data.isPrefixOf s.data

/-- Modelled from the spec: `hbb_common::tls::is_plain` — whether the URL
uses the unencrypted scheme (spec §3: "if the URL uses the unencrypted
scheme"). -/
def is_plain (url : String) : Bool :=
  starts_with url "http://"

/-- Modelled from the spec: `hbb_common::proxy::ProxyScheme` — the parsed
upstream proxy target: scheme with host (HTTP/HTTPS) or address (SOCKS5),
each carrying optional credentials.  The `String` in the credential
position is the precomputed basic-authorization payload returned by
`get_basic_authorization` (spec §4.2: "compute a basic-authorization
value"). -/
inductive ProxyScheme where
  | Http (host : String) (auth : Option String)
  | Https (host : String) (auth : Option String)
  | Socks5 (addr : String) (auth : Option String)
deriving DecidableEq, Repr

/-- Modelled from the spec: `ProxyScheme::maybe_auth` — the credentials,
when present. -/
def ProxyScheme.maybe_auth : ProxyScheme → Option String
  | .Http _ a => a
  | .Https _ a => a
  | .Socks5 _ a => a

/-- Modelled from the spec: `hbb_common::config::Socks5Server`, the raw
proxy configuration.  `proxy` is the configured proxy URL string (read by
`get_url_for_tls`); `parsed` is the result of `Proxy::from_conf` on this
configuration — `none` embeds a malformed configuration on which
`from_conf` fails (spec §4.2 failure handling). -/
structure Socks5Server where
  proxy : String
  parsed : Option ProxyScheme
deriving DecidableEq, Repr

/-- The ambient environment of one call: the proxy configuration returned
by `Config::get_socks()`, plus the outcomes of the two fallible external
reqwest operations (`reqwest::Proxy::all` and `ClientBuilder::build`),
which are external library calls embedded as input outcomes. -/
structure Env where
  socks : Option Socks5Server
  proxyAllOk : Bool
  buildOk : Bool
deriving DecidableEq, Repr

/-- The observable configuration of a built reqwest client: whether the
builder's `no_proxy()` opt-out of environment-inherited proxies was
applied, certificate validation mode, selected TLS implementation,
explicit proxy target and proxy-authorization default header. -/
structure Client where
  noProxy : Bool
  dangerAcceptInvalidCerts : Bool
  useNativeTls : Bool
  useRustls : Bool
  proxy : Option String
  proxyAuthHeader : Option String
deriving DecidableEq, Repr

/-- `reqwest::...::Client::new()` — the library-default client.  The
default builder does not apply `no_proxy()`, so the default client keeps
reqwest's environment proxy auto-detection (the very behaviour the
`no_proxy()` call in the source, per its comment, is there to disable). -/
def Client.new : Client :=
  { noProxy := false
    dangerAcceptInvalidCerts := false
    useNativeTls := false
    useRustls := false
    proxy := none
    proxyAuthHeader := none }

/-- Embedding of the `configure_http_client!` macro body
(`http_client.rs:12`–`88`): start from a builder with `no_proxy()`,
apply `danger_accept_invalid_certs` and the TLS backend choice, then, if
a proxy is configured, resolve it (`Proxy::from_conf`), derive the proxy
target string, attach the basic proxy-authorization header when
credentials are present, and build — falling back to `Client.new` on any
resolution, setup, or build failure.  (The header value
`"Basic " ++ payload` is plain ASCII, so its `HeaderValue` parse in the
source always succeeds and is embedded as succeeding.) -/
def configure_http_client (env : Env) (tls_type : TlsType)
    (danger_accept_invalid_cert : Bool) : Client :=
  let builder : Client := { Client.new with noProxy := true }
  let builder :=
    if danger_accept_invalid_cert then
      { builder with dangerAcceptInvalidCerts := true }
    else builder
  let builder :=
    match tls_type with
    | .Plain => builder
    | .NativeTls => { builder with useNativeTls := true }
    | .Rustls => { builder with useRustls := true }
  match env.socks with
  | some conf =>
    match conf.parsed with
    | some intercept =>
      let proxyUrl :=
        match intercept with
        | .Http host _ => "http://" ++ host
        | .Https host _ => "https://" ++ host
        | .Socks5 addr _ => "socks5://" ++ addr
      if env.proxyAllOk then
        let builder := { builder with proxy := some proxyUrl }
        let builder :=
          match intercept.maybe_auth with
          | some payload =>
              { builder with proxyAuthHeader := some ("Basic " ++ payload) }
          | none => builder
        if env.buildOk then builder else Client.new
      else Client.new
    | none => Client.new
  | none => if env.buildOk then builder else Client.new

/-- `create_http_client` (`http_client.rs:90`): the blocking builder
entry point, an instantiation of `configure_http_client!`. -/
def create_http_client (env : Env) (tls_type : TlsType)
    (danger_accept_invalid_cert : Bool) : Client :=
  configure_http_client env tls_type danger_accept_invalid_cert

/-- `create_http_client_async` (`http_client.rs:95`): the suspending
builder entry point; the macro body is identical, so the applied
configuration is the same record. -/
def create_http_client_async (env : Env) (tls_type : TlsType)
    (danger_accept_invalid_cert : Bool) : Client :=
  configure_http_client env tls_type danger_accept_invalid_cert

/-- `get_url_for_tls` (`http_client.rs:103`): the TLS-relevant key is the
proxy's URL when the target is plain and the configured proxy URL starts
with `https://`; otherwise the original URL. -/
def get_url_for_tls (url : String) (proxy_conf : Option Socks5Server) : String :=
  if is_plain url then
    match proxy_conf with
    | some conf => if starts_with conf.proxy "https://" then conf.proxy else url
    | none => url
  else url

/-- Classification of one probe (`client.head(url).send()`) outcome:
`success` is any completed response; `errRequest` is an error whose
`is_request()` holds (the connect/TLS class); `errOther` is any other
error. -/
inductive ProbeOutcome where
  | success
  | errRequest
  | errOther
deriving DecidableEq, Repr

/-- One probe performed by an orchestrator: the URL the HEAD request was
sent to, and the `(tls_type, danger_accept_invalid_cert)` configuration
the probed client was built with. -/
structure Probe where
  url : String
  tlsType : TlsType
  danger : Bool
deriving DecidableEq, Repr

/-- Result of one orchestrator call: the returned client, the cache after
the call, the probes performed (in order), and the index of the next
unconsumed probe outcome. -/
structure RunResult where
  client : Client
  cache : TlsCache
  probes : List Probe
  next : Nat
deriving DecidableEq, Repr

/-- The mutable arguments of one level of the Rust orchestrator
recursion: current TLS backend, whether a backend was cached before the
call began, current and original accept-invalid-cert mode, next probe
outcome index, cache, and probes performed so far. -/
structure OrchSt where
  tls_type : TlsType
  is_tls_type_cached : Bool
  danger : Option Bool
  orig : Option Bool
  k : Nat
  cache : TlsCache
  probed : List Probe
deriving DecidableEq, Repr

/-- Result of one orchestrator level: either the call returns (`done`) or
it tail-recurses with new arguments (`retry`). -/
inductive StepRes where
  | done (r : RunResult)
  | retry (s : OrchSt)
deriving DecidableEq, Repr

/-- One level of `create_http_client_with_url_` (`http_client.rs:131`),
the blocking fallback orchestrator: build a client for the current
configuration; return it at once on the trust-the-cache fast path;
otherwise probe.  On a request-class error (`e.is_request()`) consult
the transition table and tail-recurse; on any other error only log; on
success upsert the backend and the **original** accept-invalid-cert mode
(`unwrap_or(false)`) for the canonical URL. -/
def sync_step (env : Env) (outs : Nat → ProbeOutcome) (url tls_url : String)
    (s : OrchSt) : StepRes :=
  let client := create_http_client env s.tls_type (s.danger.getD false)
  if s.is_tls_type_cached && s.orig.isSome then
    .done ⟨client, s.cache, s.probed, s.k⟩
  else
    let probed := s.probed ++ [⟨url, s.tls_type, s.danger.getD false⟩]
    match outs s.k with
    | .success =>
        .done ⟨client,
          upsert_tls_accept_invalid_cert
            (upsert_tls_type s.cache tls_url s.tls_type) tls_url (s.orig.getD false),
          probed, s.k + 1⟩
    | .errOther => .done ⟨client, s.cache, probed, s.k + 1⟩
    | .errRequest =>
        match s.tls_type, s.is_tls_type_cached, s.danger with
        | .NativeTls, _, none =>
            .retry ⟨.Rustls, s.is_tls_type_cached, some true, s.orig, s.k + 1, s.cache, probed⟩
        | .NativeTls, false, some _ =>
            .retry ⟨.Rustls, s.is_tls_type_cached, s.orig, s.orig, s.k + 1, s.cache, probed⟩
        | .Rustls, _, none =>
            .retry ⟨.NativeTls, s.is_tls_type_cached, some true, s.orig, s.k + 1, s.cache, probed⟩
        | _, _, _ => .done ⟨client, s.cache, probed, s.k + 1⟩

/-- One level of `create_http_client_async_with_url_`
(`http_client.rs:241`), the suspending fallback orchestrator.  Identical
to the blocking level except for its two textual divergences in the
source: (a) there is no `is_request()` guard, so *every* probe error
consults the transition table, and (b) on success the **current**
`danger_accept_invalid_cert` (`unwrap_or(false)`) is upserted, not the
original one. -/
def async_step (env : Env) (outs : Nat → ProbeOutcome) (url tls_url : String)
    (s : OrchSt) : StepRes :=
  let client := create_http_client_async env s.tls_type (s.danger.getD false)
  if s.is_tls_type_cached && s.orig.isSome then
    .done ⟨client, s.cache, s.probed, s.k⟩
  else
    let probed := s.probed ++ [⟨url, s.tls_type, s.danger.getD false⟩]
    match outs s.k with
    | .success =>
        .done ⟨client,
          upsert_tls_accept_invalid_cert
            (upsert_tls_type s.cache tls_url s.tls_type) tls_url (s.danger.getD false),
          probed, s.k + 1⟩
    | _ =>
        match s.tls_type, s.is_tls_type_cached, s.danger with
        | .NativeTls, _, none =>
            .retry ⟨.Rustls, s.is_tls_type_cached, some true, s.orig, s.k + 1, s.cache, probed⟩
        | .NativeTls, false, some _ =>
            .retry ⟨.Rustls, s.is_tls_type_cached, s.orig, s.orig, s.k + 1, s.cache, probed⟩
        | .Rustls, _, none =>
            .retry ⟨.NativeTls, s.is_tls_type_cached, some true, s.orig, s.k + 1, s.cache, probed⟩
        | _, _, _ => .done ⟨client, s.cache, probed, s.k + 1⟩

/-- The orchestrator recursion in the source is tail recursion (the
recursive call's result is returned unchanged), so it is embedded as a
fuel-bounded loop over the level function.  Fuel `0` yields a placeholder
result that is never reached from the public entry points (a theorem
shows two units of fuel always suffice there). -/
def orchRun (step : OrchSt → StepRes) : Nat → OrchSt → RunResult
  | 0, s => ⟨Client.new, s.cache, s.probed, s.k⟩
  | f + 1, s =>
      match step s with
      | .done r => r
      | .retry s' => orchRun step f s'

/-- `create_http_client_with_url_` (`http_client.rs:131`): the blocking
fallback orchestrator, as the bounded loop over its level function. -/
def create_http_client_with_url_ (env : Env) (outs : Nat → ProbeOutcome)
    (url tls_url : String) (fuel : Nat) (tls_type : TlsType)
    (is_tls_type_cached : Bool) (danger orig : Option Bool) (k : Nat)
    (cache : TlsCache) (probed : List Probe) : RunResult :=
  orchRun (sync_step env outs url tls_url) fuel
    ⟨tls_type, is_tls_type_cached, danger, orig, k, cache, probed⟩

/-- `create_http_client_async_with_url_` (`http_client.rs:241`): the
suspending fallback orchestrator, as the bounded loop over its level
function. -/
def create_http_client_async_with_url_ (env : Env) (outs : Nat → ProbeOutcome)
    (url tls_url : String) (fuel : Nat) (tls_type : TlsType)
    (is_tls_type_cached : Bool) (danger orig : Option Bool) (k : Nat)
    (cache : TlsCache) (probed : List Probe) : RunResult :=
  orchRun (async_step env outs url tls_url) fuel
    ⟨tls_type, is_tls_type_cached, danger, orig, k, cache, probed⟩

/-- `create_http_client_with_url` (`http_client.rs:114`): the blocking
public entry point — canonicalize the URL, read both cache maps, default
the backend to `NativeTls`, and run the orchestrator with the cached
accept-invalid-cert mode as both current and original value. -/
def create_http_client_with_url (env : Env) (outs : Nat → ProbeOutcome)
    (fuel : Nat) (url : String) (cache : TlsCache) : RunResult :=
  let proxy_conf := env.socks
  let tls_url := get_url_for_tls url proxy_conf
  let tt := get_cached_tls_type cache tls_url
  let d := get_cached_tls_accept_invalid_cert cache tls_url
  create_http_client_with_url_ env outs url tls_url fuel (tt.getD .NativeTls)
    tt.isSome d d 0 cache []

/-- `create_http_client_async_with_url` (`http_client.rs:223`): the
suspending public entry point. -/
def create_http_client_async_with_url (env : Env) (outs : Nat → ProbeOutcome)
    (fuel : Nat) (url : String) (cache : TlsCache) : RunResult :=
  let proxy_conf := env.socks
  let tls_url := get_url_for_tls url proxy_conf
  let tt := get_cached_tls_type cache tls_url
  let d := get_cached_tls_accept_invalid_cert cache tls_url
  create_http_client_async_with_url_ env outs url tls_url fuel (tt.getD .NativeTls)
    tt.isSome d d 0 cache []

/-- The fallback transition table exactly as the specification states it
(spec §4.5), written independently of the orchestrator embedding: given
the current backend, the cached flag, the current certificate mode and
the original certificate mode, it yields the next `(backend, certMode)`,
or `none` for a terminal combination.  `NativeTls` is the spec's
`PrimaryStack` and `Rustls` its `PortableStack`. -/
def specTransition (backend : TlsType) (cached : Bool)
    (certMode original : Option Bool) : Option (TlsType × Option Bool) :=
  match backend, cached, certMode with
  | .NativeTls, _, none => some (.Rustls, some true)
  | .NativeTls, false, some _ => some (.Rustls, original)
  | .Rustls, _, none => some (.NativeTls, some true)
  | _, _, _ => none

/-! ## Helper lemmas -/

theorem getLast?_append_singleton {α : Type} (l : List α) (a : α) :
    (l ++ [a]).getLast? = some a := by
  induction l with
  | nil => rfl
  | cons b l ih =>
      cases l with
      | nil => rfl
      | cons c l => simpa using ih

/-- Frame/effect shape of a whole blocking-orchestrator run: either the
cache is untouched, or exactly one backend entry and one certificate-mode
entry were pushed for the canonical URL — the backend of the last probe
performed, and the *original* mode (`unwrap_or(false)`), with the
returned client being the one built for that last probe. -/
theorem sync_run_cache (env : Env) (outs : Nat → ProbeOutcome)
    (url tls_url : String) :
    ∀ (f : Nat) (s : OrchSt),
      (orchRun (sync_step env outs url tls_url) f s).cache = s.cache ∨
      ∃ p, (orchRun (sync_step env outs url tls_url) f s).probes.getLast? = some p ∧
        (orchRun (sync_step env outs url tls_url) f s).cache =
          ⟨(tls_url, p.tlsType) :: s.cache.tlsType,
           (tls_url, s.orig.getD false) :: s.cache.acceptInvalid⟩ ∧
        (orchRun (sync_step env outs url tls_url) f s).client =
          create_http_client env p.tlsType p.danger := by
  intro f
  induction f with
  | zero => intro s; exact Or.inl rfl
  | succ f ih =>
    intro s
    obtain ⟨T, c, d, g, k, cache, probed⟩ := s
    by_cases hfp : (c && g.isSome) = true
    · left
      simp [orchRun, sync_step, hfp]
    · rcases houts : outs k with _ | _ | _
      · right
        refine ⟨⟨url, T, d.getD false⟩, ?_, ?_, ?_⟩ <;>
          simp [orchRun, sync_step, hfp, houts, upsert_tls_type,
            upsert_tls_accept_invalid_cert, getLast?_append_singleton]
      · rcases T with _ | _ | _ <;> rcases c with _ | _ <;> rcases d with _ | x
        · left; simp [orchRun, sync_step, hfp, houts]
        · left; simp [orchRun, sync_step, hfp, houts]
        · left; simp [orchRun, sync_step, hfp, houts]
        · left; simp [orchRun, sync_step, hfp, houts]
        · simpa [orchRun, sync_step, hfp, houts] using
            ih ⟨.Rustls, false, some true, g, k + 1, cache,
              probed ++ [⟨url, .NativeTls, false⟩]⟩
        · simpa [orchRun, sync_step, hfp, houts] using
            ih ⟨.Rustls, false, g, g, k + 1, cache,
              probed ++ [⟨url, .NativeTls, x⟩]⟩
        · simpa [orchRun, sync_step, hfp, houts] using
            ih ⟨.Rustls, true, some true, g, k + 1, cache,
              probed ++ [⟨url, .NativeTls, false⟩]⟩
        · left; simp [orchRun, sync_step, hfp, houts]
        · simpa [orchRun, sync_step, hfp, houts] using
            ih ⟨.NativeTls, false, some true, g, k + 1, cache,
              probed ++ [⟨url, .Rustls, false⟩]⟩
        · left; simp [orchRun, sync_step, hfp, houts]
        · simpa [orchRun, sync_step, hfp, houts] using
            ih ⟨.NativeTls, true, some true, g, k + 1, cache,
              probed ++ [⟨url, .Rustls, false⟩]⟩
        · left; simp [orchRun, sync_step, hfp, houts]
      · left
        simp [orchRun, sync_step, hfp, houts]

/-- Frame/effect shape of a whole suspending-orchestrator run: either the
cache is untouched, or exactly one backend entry and one certificate-mode
entry were pushed for the canonical URL — the backend and the *actually
used* accept-invalid-cert mode of the last probe performed, with the
returned client being the one built for that last probe. -/
theorem async_run_cache (env : Env) (outs : Nat → ProbeOutcome)
    (url tls_url : String) :
    ∀ (f : Nat) (s : OrchSt),
      (orchRun (async_step env outs url tls_url) f s).cache = s.cache ∨
      ∃ p, (orchRun (async_step env outs url tls_url) f s).probes.getLast? = some p ∧
        (orchRun (async_step env outs url tls_url) f s).cache =
          ⟨(tls_url, p.tlsType) :: s.cache.tlsType,
           (tls_url, p.danger) :: s.cache.acceptInvalid⟩ ∧
        (orchRun (async_step env outs url tls_url) f s).client =
          create_http_client_async env p.tlsType p.danger := by
  intro f
  induction f with
  | zero => intro s; exact Or.inl rfl
  | succ f ih =>
    intro s
    obtain ⟨T, c, d, g, k, cache, probed⟩ := s
    by_cases hfp : (c && g.isSome) = true
    · left
      simp [orchRun, async_step, hfp]
    · rcases houts : outs k with _ | _ | _
      · right
        refine ⟨⟨url, T, d.getD false⟩, ?_, ?_, ?_⟩ <;>
          simp [orchRun, async_step, hfp, houts, upsert_tls_type,
            upsert_tls_accept_invalid_cert, getLast?_append_singleton]
      · rcases T with _ | _ | _ <;> rcases c with _ | _ <;> rcases d with _ | x
        · left; simp [orchRun, async_step, hfp, houts]
        · left; simp [orchRun, async_step, hfp, houts]
        · left; simp [orchRun, async_step, hfp, houts]
        · left; simp [orchRun, async_step, hfp, houts]
        · simpa [orchRun, async_step, hfp, houts] using
            ih ⟨.Rustls, false, some true, g, k + 1, cache,
              probed ++ [⟨url, .NativeTls, false⟩]⟩
        · simpa [orchRun, async_step, hfp, houts] using
            ih ⟨.Rustls, false, g, g, k + 1, cache,
              probed ++ [⟨url, .NativeTls, x⟩]⟩
        · simpa [orchRun, async_step, hfp, houts] using
            ih ⟨.Rustls, true, some true, g, k + 1, cache,
              probed ++ [⟨url, .NativeTls, false⟩]⟩
        · left; simp [orchRun, async_step, hfp, houts]
        · simpa [orchRun, async_step, hfp, houts] using
            ih ⟨.NativeTls, false, some true, g, k + 1, cache,
              probed ++ [⟨url, .Rustls, false⟩]⟩
        · left; simp [orchRun, async_step, hfp, houts]
        · simpa [orchRun, async_step, hfp, houts] using
            ih ⟨.NativeTls, true, some true, g, k + 1, cache,
              probed ++ [⟨url, .Rustls, false⟩]⟩
        · left; simp [orchRun, async_step, hfp, houts]
      · rcases T with _ | _ | _ <;> rcases c with _ | _ <;> rcases d with _ | x
        · left; simp [orchRun, async_step, hfp, houts]
        · left; simp [orchRun, async_step, hfp, houts]
        · left; simp [orchRun, async_step, hfp, houts]
        · left; simp [orchRun, async_step, hfp, houts]
        · simpa [orchRun, async_step, hfp, houts] using
            ih ⟨.Rustls, false, some true, g, k + 1, cache,
              probed ++ [⟨url, .NativeTls, false⟩]⟩
        · simpa [orchRun, async_step, hfp, houts] using
            ih ⟨.Rustls, false, g, g, k + 1, cache,
              probed ++ [⟨url, .NativeTls, x⟩]⟩
        · simpa [orchRun, async_step, hfp, houts] using
            ih ⟨.Rustls, true, some true, g, k + 1, cache,
              probed ++ [⟨url, .NativeTls, false⟩]⟩
        · left; simp [orchRun, async_step, hfp, houts]
        · simpa [orchRun, async_step, hfp, houts] using
            ih ⟨.NativeTls, false, some true, g, k + 1, cache,
              probed ++ [⟨url, .Rustls, false⟩]⟩
        · left; simp [orchRun, async_step, hfp, houts]
        · simpa [orchRun, async_step, hfp, houts] using
            ih ⟨.NativeTls, true, some true, g, k + 1, cache,
              probed ++ [⟨url, .Rustls, false⟩]⟩
        · left; simp [orchRun, async_step, hfp, houts]

/-- If no probe outcome consumed by a blocking-orchestrator run is a
success, the run leaves the cache exactly as it found it. -/
theorem sync_run_nosuccess (env : Env) (outs : Nat → ProbeOutcome)
    (url tls_url : String) :
    ∀ (f : Nat) (s : OrchSt),
      (∀ j, s.k ≤ j → j < (orchRun (sync_step env outs url tls_url) f s).next →
        outs j ≠ .success) →
      (orchRun (sync_step env outs url tls_url) f s).cache = s.cache := by
  intro f
  induction f with
  | zero => intro s _; rfl
  | succ f ih =>
    intro s h
    obtain ⟨T, c, d, g, k, cache, probed⟩ := s
    by_cases hfp : (c && g.isSome) = true
    · simp [orchRun, sync_step, hfp]
    · rcases houts : outs k with _ | _ | _
      · exact absurd houts
          (h k (Nat.le_refl k) (by simp [orchRun, sync_step, hfp, houts]))
      · rcases T with _ | _ | _ <;> rcases c with _ | _ <;> rcases d with _ | x
        · simp [orchRun, sync_step, hfp, houts]
        · simp [orchRun, sync_step, hfp, houts]
        · simp [orchRun, sync_step, hfp, houts]
        · simp [orchRun, sync_step, hfp, houts]
        · have hred : orchRun (sync_step env outs url tls_url) (f + 1)
              ⟨.NativeTls, false, none, g, k, cache, probed⟩ =
              orchRun (sync_step env outs url tls_url) f
                ⟨.Rustls, false, some true, g, k + 1, cache,
                  probed ++ [⟨url, .NativeTls, false⟩]⟩ := by
            simp [orchRun, sync_step, hfp, houts]
          rw [hred] at h ⊢
          exact ih _ (fun j hj1 hj2 => h j (Nat.le_of_succ_le hj1) hj2)
        · have hred : orchRun (sync_step env outs url tls_url) (f + 1)
              ⟨.NativeTls, false, some x, g, k, cache, probed⟩ =
              orchRun (sync_step env outs url tls_url) f
                ⟨.Rustls, false, g, g, k + 1, cache,
                  probed ++ [⟨url, .NativeTls, x⟩]⟩ := by
            simp [orchRun, sync_step, hfp, houts]
          rw [hred] at h ⊢
          exact ih _ (fun j hj1 hj2 => h j (Nat.le_of_succ_le hj1) hj2)
        · have hred : orchRun (sync_step env outs url tls_url) (f + 1)
              ⟨.NativeTls, true, none, g, k, cache, probed⟩ =
              orchRun (sync_step env outs url tls_url) f
                ⟨.Rustls, true, some true, g, k + 1, cache,
                  probed ++ [⟨url, .NativeTls, false⟩]⟩ := by
            simp [orchRun, sync_step, hfp, houts]
          rw [hred] at h ⊢
          exact ih _ (fun j hj1 hj2 => h j (Nat.le_of_succ_le hj1) hj2)
        · simp [orchRun, sync_step, hfp, houts]
        · have hred : orchRun (sync_step env outs url tls_url) (f + 1)
              ⟨.Rustls, false, none, g, k, cache, probed⟩ =
              orchRun (sync_step env outs url tls_url) f
                ⟨.NativeTls, false, some true, g, k + 1, cache,
                  probed ++ [⟨url, .Rustls, false⟩]⟩ := by
            simp [orchRun, sync_step, hfp, houts]
          rw [hred] at h ⊢
          exact ih _ (fun j hj1 hj2 => h j (Nat.le_of_succ_le hj1) hj2)
        · simp [orchRun, sync_step, hfp, houts]
        · have hred : orchRun (sync_step env outs url tls_url) (f + 1)
              ⟨.Rustls, true, none, g, k, cache, probed⟩ =
              orchRun (sync_step env outs url tls_url) f
                ⟨.NativeTls, true, some true, g, k + 1, cache,
                  probed ++ [⟨url, .Rustls, false⟩]⟩ := by
            simp [orchRun, sync_step, hfp, houts]
          rw [hred] at h ⊢
          exact ih _ (fun j hj1 hj2 => h j (Nat.le_of_succ_le hj1) hj2)
        · simp [orchRun, sync_step, hfp, houts]
      · simp [orchRun, sync_step, hfp, houts]

/-- If no probe outcome consumed by a suspending-orchestrator run is a
success, the run leaves the cache exactly as it found it. -/
theorem async_run_nosuccess (env : Env) (outs : Nat → ProbeOutcome)
    (url tls_url : String) :
    ∀ (f : Nat) (s : OrchSt),
      (∀ j, s.k ≤ j → j < (orchRun (async_step env outs url tls_url) f s).next →
        outs j ≠ .success) →
      (orchRun (async_step env outs url tls_url) f s).cache = s.cache := by
  intro f
  induction f with
  | zero => intro s _; rfl
  | succ f ih =>
    intro s h
    obtain ⟨T, c, d, g, k, cache, probed⟩ := s
    by_cases hfp : (c && g.isSome) = true
    · simp [orchRun, async_step, hfp]
    · rcases houts : outs k with _ | _ | _
      · exact absurd houts
          (h k (Nat.le_refl k) (by simp [orchRun, async_step, hfp, houts]))
      · rcases T with _ | _ | _ <;> rcases c with _ | _ <;> rcases d with _ | x
        · simp [orchRun, async_step, hfp, houts]
        · simp [orchRun, async_step, hfp, houts]
        · simp [orchRun, async_step, hfp, houts]
        · simp [orchRun, async_step, hfp, houts]
        · have hred : orchRun (async_step env outs url tls_url) (f + 1)
              ⟨.NativeTls, false, none, g, k, cache, probed⟩ =
              orchRun (async_step env outs url tls_url) f
                ⟨.Rustls, false, some true, g, k + 1, cache,
                  probed ++ [⟨url, .NativeTls, false⟩]⟩ := by
            simp [orchRun, async_step, hfp, houts]
          rw [hred] at h ⊢
          exact ih _ (fun j hj1 hj2 => h j (Nat.le_of_succ_le hj1) hj2)
        · have hred : orchRun (async_step env outs url tls_url) (f + 1)
              ⟨.NativeTls, false, some x, g, k, cache, probed⟩ =
              orchRun (async_step env outs url tls_url) f
                ⟨.Rustls, false, g, g, k + 1, cache,
                  probed ++ [⟨url, .NativeTls, x⟩]⟩ := by
            simp [orchRun, async_step, hfp, houts]
          rw [hred] at h ⊢
          exact ih _ (fun j hj1 hj2 => h j (Nat.le_of_succ_le hj1) hj2)
        · have hred : orchRun (async_step env outs url tls_url) (f + 1)
              ⟨.NativeTls, true, none, g, k, cache, probed⟩ =
              orchRun (async_step env outs url tls_url) f
                ⟨.Rustls, true, some true, g, k + 1, cache,
                  probed ++ [⟨url, .NativeTls, false⟩]⟩ := by
            simp [orchRun, async_step, hfp, houts]
          rw [hred] at h ⊢
          exact ih _ (fun j hj1 hj2 => h j (Nat.le_of_succ_le hj1) hj2)
        · simp [orchRun, async_step, hfp, houts]
        · have hred : orchRun (async_step env outs url tls_url) (f + 1)
              ⟨.Rustls, false, none, g, k, cache, probed⟩ =
              orchRun (async_step env outs url tls_url) f
                ⟨.NativeTls, false, some true, g, k + 1, cache,
                  probed ++ [⟨url, .Rustls, false⟩]⟩ := by
            simp [orchRun, async_step, hfp, houts]
          rw [hred] at h ⊢
          exact ih _ (fun j hj1 hj2 => h j (Nat.le_of_succ_le hj1) hj2)
        · simp [orchRun, async_step, hfp, houts]
        · have hred : orchRun (async_step env outs url tls_url) (f + 1)
              ⟨.Rustls, true, none, g, k, cache, probed⟩ =
              orchRun (async_step env outs url tls_url) f
                ⟨.NativeTls, true, some true, g, k + 1, cache,
                  probed ++ [⟨url, .Rustls, false⟩]⟩ := by
            simp [orchRun, async_step, hfp, houts]
          rw [hred] at h ⊢
          exact ih _ (fun j hj1 hj2 => h j (Nat.le_of_succ_le hj1) hj2)
        · simp [orchRun, async_step, hfp, houts]
      · rcases T with _ | _ | _ <;> rcases c with _ | _ <;> rcases d with _ | x
        · simp [orchRun, async_step, hfp, houts]
        · simp [orchRun, async_step, hfp, houts]
        · simp [orchRun, async_step, hfp, houts]
        · simp [orchRun, async_step, hfp, houts]
        · have hred : orchRun (async_step env outs url tls_url) (f + 1)
              ⟨.NativeTls, false, none, g, k, cache, probed⟩ =
              orchRun (async_step env outs url tls_url) f
                ⟨.Rustls, false, some true, g, k + 1, cache,
                  probed ++ [⟨url, .NativeTls, false⟩]⟩ := by
            simp [orchRun, async_step, hfp, houts]
          rw [hred] at h ⊢
          exact ih _ (fun j hj1 hj2 => h j (Nat.le_of_succ_le hj1) hj2)
        · have hred : orchRun (async_step env outs url tls_url) (f + 1)
              ⟨.NativeTls, false, some x, g, k, cache, probed⟩ =
              orchRun (async_step env outs url tls_url) f
                ⟨.Rustls, false, g, g, k + 1, cache,
                  probed ++ [⟨url, .NativeTls, x⟩]⟩ := by
            simp [orchRun, async_step, hfp, houts]
          rw [hred] at h ⊢
          exact ih _ (fun j hj1 hj2 => h j (Nat.le_of_succ_le hj1) hj2)
        · have hred : orchRun (async_step env outs url tls_url) (f + 1)
              ⟨.NativeTls, true, none, g, k, cache, probed⟩ =
              orchRun (async_step env outs url tls_url) f
                ⟨.Rustls, true, some true, g, k + 1, cache,
                  probed ++ [⟨url, .NativeTls, false⟩]⟩ := by
            simp [orchRun, async_step, hfp, houts]
          rw [hred] at h ⊢
          exact ih _ (fun j hj1 hj2 => h j (Nat.le_of_succ_le hj1) hj2)
        · simp [orchRun, async_step, hfp, houts]
        · have hred : orchRun (async_step env outs url tls_url) (f + 1)
              ⟨.Rustls, false, none, g, k, cache, probed⟩ =
              orchRun (async_step env outs url tls_url) f
                ⟨.NativeTls, false, some true, g, k + 1, cache,
                  probed ++ [⟨url, .Rustls, false⟩]⟩ := by
            simp [orchRun, async_step, hfp, houts]
          rw [hred] at h ⊢
          exact ih _ (fun j hj1 hj2 => h j (Nat.le_of_succ_le hj1) hj2)
        · simp [orchRun, async_step, hfp, houts]
        · have hred : orchRun (async_step env outs url tls_url) (f + 1)
              ⟨.Rustls, true, none, g, k, cache, probed⟩ =
              orchRun (async_step env outs url tls_url) f
                ⟨.NativeTls, true, some true, g, k + 1, cache,
                  probed ++ [⟨url, .Rustls, false⟩]⟩ := by
            simp [orchRun, async_step, hfp, houts]
          rw [hred] at h ⊢
          exact ih _ (fun j hj1 hj2 => h j (Nat.le_of_succ_le hj1) hj2)
        · simp [orchRun, async_step, hfp, houts]

/-- Every probe performed by a blocking-orchestrator run sends its HEAD
request to the original `url` argument (never to the canonical
`tls_url`). -/
theorem sync_run_probe_urls (env : Env) (outs : Nat → ProbeOutcome)
    (url tls_url : String) :
    ∀ (f : Nat) (s : OrchSt) (p : Probe),
      p ∈ (orchRun (sync_step env outs url tls_url) f s).probes →
      p.url = url ∨ p ∈ s.probed := by
  intro f
  induction f with
  | zero => intro s p hp; exact Or.inr hp
  | succ f ih =>
    intro s p hp
    obtain ⟨T, c, d, g, k, cache, probed⟩ := s
    by_cases hfp : (c && g.isSome) = true
    · simp [orchRun, sync_step, hfp] at hp
      exact Or.inr hp
    · rcases houts : outs k with _ | _ | _
      · simp [orchRun, sync_step, hfp, houts] at hp
        rcases hp with hp | hp
        · exact Or.inr hp
        · exact Or.inl (by simp [hp])
      · rcases T with _ | _ | _ <;> rcases c with _ | _ <;> rcases d with _ | x
        · simp [orchRun, sync_step, hfp, houts] at hp
          rcases hp with hp | hp
          · exact Or.inr hp
          · exact Or.inl (by simp [hp])
        · simp [orchRun, sync_step, hfp, houts] at hp
          rcases hp with hp | hp
          · exact Or.inr hp
          · exact Or.inl (by simp [hp])
        · simp [orchRun, sync_step, hfp, houts] at hp
          rcases hp with hp | hp
          · exact Or.inr hp
          · exact Or.inl (by simp [hp])
        · simp [orchRun, sync_step, hfp, houts] at hp
          rcases hp with hp | hp
          · exact Or.inr hp
          · exact Or.inl (by simp [hp])
        · have hred : orchRun (sync_step env outs url tls_url) (f + 1)
              ⟨.NativeTls, false, none, g, k, cache, probed⟩ =
              orchRun (sync_step env outs url tls_url) f
                ⟨.Rustls, false, some true, g, k + 1, cache,
                  probed ++ [⟨url, .NativeTls, false⟩]⟩ := by
            simp [orchRun, sync_step, hfp, houts]
          rw [hred] at hp
          rcases ih _ p hp with h1 | h2
          · exact Or.inl h1
          · simp at h2
            rcases h2 with h2 | h2
            · exact Or.inr h2
            · exact Or.inl (by simp [h2])
        · have hred : orchRun (sync_step env outs url tls_url) (f + 1)
              ⟨.NativeTls, false, some x, g, k, cache, probed⟩ =
              orchRun (sync_step env outs url tls_url) f
                ⟨.Rustls, false, g, g, k + 1, cache,
                  probed ++ [⟨url, .NativeTls, x⟩]⟩ := by
            simp [orchRun, sync_step, hfp, houts]
          rw [hred] at hp
          rcases ih _ p hp with h1 | h2
          · exact Or.inl h1
          · simp at h2
            rcases h2 with h2 | h2
            · exact Or.inr h2
            · exact Or.inl (by simp [h2])
        · have hred : orchRun (sync_step env outs url tls_url) (f + 1)
              ⟨.NativeTls, true, none, g, k, cache, probed⟩ =
              orchRun (sync_step env outs url tls_url) f
                ⟨.Rustls, true, some true, g, k + 1, cache,
                  probed ++ [⟨url, .NativeTls, false⟩]⟩ := by
            simp [orchRun, sync_step, hfp, houts]
          rw [hred] at hp
          rcases ih _ p hp with h1 | h2
          · exact Or.inl h1
          · simp at h2
            rcases h2 with h2 | h2
            · exact Or.inr h2
            · exact Or.inl (by simp [h2])
        · simp [orchRun, sync_step, hfp, houts] at hp
          rcases hp with hp | hp
          · exact Or.inr hp
          · exact Or.inl (by simp [hp])
        · have hred : orchRun (sync_step env outs url tls_url) (f + 1)
              ⟨.Rustls, false, none, g, k, cache, probed⟩ =
              orchRun (sync_step env outs url tls_url) f
                ⟨.NativeTls, false, some true, g, k + 1, cache,
                  probed ++ [⟨url, .Rustls, false⟩]⟩ := by
            simp [orchRun, sync_step, hfp, houts]
          rw [hred] at hp
          rcases ih _ p hp with h1 | h2
          · exact Or.inl h1
          · simp at h2
            rcases h2 with h2 | h2
            · exact Or.inr h2
            · exact Or.inl (by simp [h2])
        · simp [orchRun, sync_step, hfp, houts] at hp
          rcases hp with hp | hp
          · exact Or.inr hp
          · exact Or.inl (by simp [hp])
        · have hred : orchRun (sync_step env outs url tls_url) (f + 1)
              ⟨.Rustls, true, none, g, k, cache, probed⟩ =
              orchRun (sync_step env outs url tls_url) f
                ⟨.NativeTls, true, some true, g, k + 1, cache,
                  probed ++ [⟨url, .Rustls, false⟩]⟩ := by
            simp [orchRun, sync_step, hfp, houts]
          rw [hred] at hp
          rcases ih _ p hp with h1 | h2
          · exact Or.inl h1
          · simp at h2
            rcases h2 with h2 | h2
            · exact Or.inr h2
            · exact Or.inl (by simp [h2])
        · simp [orchRun, sync_step, hfp, houts] at hp
          rcases hp with hp | hp
          · exact Or.inr hp
          · exact Or.inl (by simp [hp])
      · simp [orchRun, sync_step, hfp, houts] at hp
        rcases hp with hp | hp
        · exact Or.inr hp
        · exact Or.inl (by simp [hp])

/-- When no probe outcome is classified `errOther`, the blocking and
suspending orchestrators return the same client, perform the same probes
in the same order, consume the same outcomes, and write the same backend
entries to the cache (only the *certificate-mode* entry may differ). -/
theorem sync_async_agree (env : Env) (outs : Nat → ProbeOutcome)
    (url tls_url : String) (h : ∀ j, outs j ≠ .errOther) :
    ∀ (f : Nat) (s : OrchSt),
      (orchRun (sync_step env outs url tls_url) f s).client =
        (orchRun (async_step env outs url tls_url) f s).client ∧
      (orchRun (sync_step env outs url tls_url) f s).probes =
        (orchRun (async_step env outs url tls_url) f s).probes ∧
      (orchRun (sync_step env outs url tls_url) f s).next =
        (orchRun (async_step env outs url tls_url) f s).next ∧
      (orchRun (sync_step env outs url tls_url) f s).cache.tlsType =
        (orchRun (async_step env outs url tls_url) f s).cache.tlsType := by
  intro f
  induction f with
  | zero => intro s; exact ⟨rfl, rfl, rfl, rfl⟩
  | succ f ih =>
    intro s
    obtain ⟨T, c, d, g, k, cache, probed⟩ := s
    by_cases hfp : (c && g.isSome) = true
    · refine ⟨?_, ?_, ?_, ?_⟩ <;>
        simp [orchRun, sync_step, async_step, hfp,
          create_http_client, create_http_client_async]
    · rcases houts : outs k with _ | _ | _
      · refine ⟨?_, ?_, ?_, ?_⟩ <;>
          simp [orchRun, sync_step, async_step, hfp, houts, upsert_tls_type,
            upsert_tls_accept_invalid_cert, create_http_client,
            create_http_client_async]
      · rcases T with _ | _ | _ <;> rcases c with _ | _ <;> rcases d with _ | x
        · refine ⟨?_, ?_, ?_, ?_⟩ <;>
            simp [orchRun, sync_step, async_step, hfp, houts,
              create_http_client, create_http_client_async]
        · refine ⟨?_, ?_, ?_, ?_⟩ <;>
            simp [orchRun, sync_step, async_step, hfp, houts,
              create_http_client, create_http_client_async]
        · refine ⟨?_, ?_, ?_, ?_⟩ <;>
            simp [orchRun, sync_step, async_step, hfp, houts,
              create_http_client, create_http_client_async]
        · refine ⟨?_, ?_, ?_, ?_⟩ <;>
            simp [orchRun, sync_step, async_step, hfp, houts,
              create_http_client, create_http_client_async]
        · simpa [orchRun, sync_step, async_step, hfp, houts] using
            ih ⟨.Rustls, false, some true, g, k + 1, cache,
              probed ++ [⟨url, .NativeTls, false⟩]⟩
        · simpa [orchRun, sync_step, async_step, hfp, houts] using
            ih ⟨.Rustls, false, g, g, k + 1, cache,
              probed ++ [⟨url, .NativeTls, x⟩]⟩
        · simpa [orchRun, sync_step, async_step, hfp, houts] using
            ih ⟨.Rustls, true, some true, g, k + 1, cache,
              probed ++ [⟨url, .NativeTls, false⟩]⟩
        · refine ⟨?_, ?_, ?_, ?_⟩ <;>
            simp [orchRun, sync_step, async_step, hfp, houts,
              create_http_client, create_http_client_async]
        · simpa [orchRun, sync_step, async_step, hfp, houts] using
            ih ⟨.NativeTls, false, some true, g, k + 1, cache,
              probed ++ [⟨url, .Rustls, false⟩]⟩
        · refine ⟨?_, ?_, ?_, ?_⟩ <;>
            simp [orchRun, sync_step, async_step, hfp, houts,
              create_http_client, create_http_client_async]
        · simpa [orchRun, sync_step, async_step, hfp, houts] using
            ih ⟨.NativeTls, true, some true, g, k + 1, cache,
              probed ++ [⟨url, .Rustls, false⟩]⟩
        · refine ⟨?_, ?_, ?_, ?_⟩ <;>
            simp [orchRun, sync_step, async_step, hfp, houts,
              create_http_client, create_http_client_async]
      · exact absurd houts (h k)

/-- The blocking public entry point, unfolded to the loop form. -/
theorem sync_entry_eq (env : Env) (outs : Nat → ProbeOutcome) (fuel : Nat)
    (url : String) (cache : TlsCache) :
    create_http_client_with_url env outs fuel url cache =
      orchRun (sync_step env outs url (get_url_for_tls url env.socks)) fuel
        ⟨(get_cached_tls_type cache (get_url_for_tls url env.socks)).getD .NativeTls,
         (get_cached_tls_type cache (get_url_for_tls url env.socks)).isSome,
         get_cached_tls_accept_invalid_cert cache (get_url_for_tls url env.socks),
         get_cached_tls_accept_invalid_cert cache (get_url_for_tls url env.socks),
         0, cache, []⟩ := rfl

/-- The suspending public entry point, unfolded to the loop form. -/
theorem async_entry_eq (env : Env) (outs : Nat → ProbeOutcome) (fuel : Nat)
    (url : String) (cache : TlsCache) :
    create_http_client_async_with_url env outs fuel url cache =
      orchRun (async_step env outs url (get_url_for_tls url env.socks)) fuel
        ⟨(get_cached_tls_type cache (get_url_for_tls url env.socks)).getD .NativeTls,
         (get_cached_tls_type cache (get_url_for_tls url env.socks)).isSome,
         get_cached_tls_accept_invalid_cert cache (get_url_for_tls url env.socks),
         get_cached_tls_accept_invalid_cert cache (get_url_for_tls url env.socks),
         0, cache, []⟩ := rfl

/-- From any state the public entry points can start the blocking
orchestrator in (current mode equal to the original mode, and a cached
flag of `false` forcing the `NativeTls` default), two units of fuel make
the loop's result fuel-independent, and at most two probes happen. -/
theorem sync_entry_bound (env : Env) (outs : Nat → ProbeOutcome)
    (url tls_url : String) :
    ∀ (f : Nat) (T : TlsType) (c : Bool) (d : Option Bool) (k : Nat)
      (cache : TlsCache) (probed : List Probe),
      (c = false → T = .NativeTls) →
      orchRun (sync_step env outs url tls_url) (f + 2) ⟨T, c, d, d, k, cache, probed⟩ =
        orchRun (sync_step env outs url tls_url) 2 ⟨T, c, d, d, k, cache, probed⟩ ∧
      (orchRun (sync_step env outs url tls_url) (f + 2)
          ⟨T, c, d, d, k, cache, probed⟩).probes.length ≤ probed.length + 2 := by
  intro f T c d k cache probed hTc
  rcases T with _ | _ | _ <;> rcases c with _ | _ <;> rcases d with _ | x
  all_goals
    first
    | exact absurd (hTc rfl) (by decide)
    | (rcases houts : outs k with _ | _ | _ <;>
        first
        | (refine ⟨?_, ?_⟩ <;> simp [orchRun, sync_step, houts] <;> omega)
        | (rcases houts2 : outs (k + 1) with _ | _ | _ <;> refine ⟨?_, ?_⟩ <;>
            simp [orchRun, sync_step, houts, houts2] <;> omega))

/-- The suspending analogue of `sync_entry_bound`. -/
theorem async_entry_bound (env : Env) (outs : Nat → ProbeOutcome)
    (url tls_url : String) :
    ∀ (f : Nat) (T : TlsType) (c : Bool) (d : Option Bool) (k : Nat)
      (cache : TlsCache) (probed : List Probe),
      (c = false → T = .NativeTls) →
      orchRun (async_step env outs url tls_url) (f + 2) ⟨T, c, d, d, k, cache, probed⟩ =
        orchRun (async_step env outs url tls_url) 2 ⟨T, c, d, d, k, cache, probed⟩ ∧
      (orchRun (async_step env outs url tls_url) (f + 2)
          ⟨T, c, d, d, k, cache, probed⟩).probes.length ≤ probed.length + 2 := by
  intro f T c d k cache probed hTc
  rcases T with _ | _ | _ <;> rcases c with _ | _ <;> rcases d with _ | x
  all_goals
    first
    | exact absurd (hTc rfl) (by decide)
    | (rcases houts : outs k with _ | _ | _ <;>
        first
        | (refine ⟨?_, ?_⟩ <;> simp [orchRun, async_step, houts] <;> omega)
        | (rcases houts2 : outs (k + 1) with _ | _ | _ <;> refine ⟨?_, ?_⟩ <;>
            simp [orchRun, async_step, houts, houts2] <;> omega))

/-! ## Claim theorems -/

/-- **C4**: on a ConnectFailure (request-class probe error) outside the
trust-the-cache fast path, both orchestrators take exactly the
transitions of the spec's table — `(PrimaryStack, any, absent) →
(PortableStack, true)`, `(PrimaryStack, false, present) → (PortableStack,
original)`, `(PortableStack, any, absent) → (PrimaryStack, true)` — and
every other combination is terminal: the orchestrator logs and returns
the current client without rebuilding and without touching the cache. -/
theorem C4_transition_table (env : Env) (outs : Nat → ProbeOutcome)
    (url tls_url : String) (T : TlsType) (c : Bool) (d g : Option Bool)
    (k : Nat) (cache : TlsCache) (probed : List Probe)
    (hfp : (c && g.isSome) = false) (houts : outs k = .errRequest) :
    match specTransition T c d g with
    | some (T', d') =>
        sync_step env outs url tls_url ⟨T, c, d, g, k, cache, probed⟩ =
          .retry ⟨T', c, d', g, k + 1, cache, probed ++ [⟨url, T, d.getD false⟩]⟩ ∧
        async_step env outs url tls_url ⟨T, c, d, g, k, cache, probed⟩ =
          .retry ⟨T', c, d', g, k + 1, cache, probed ++ [⟨url, T, d.getD false⟩]⟩
    | none =>
        sync_step env outs url tls_url ⟨T, c, d, g, k, cache, probed⟩ =
          .done ⟨create_http_client env T (d.getD false), cache,
            probed ++ [⟨url, T, d.getD false⟩], k + 1⟩ ∧
        async_step env outs url tls_url ⟨T, c, d, g, k, cache, probed⟩ =
          .done ⟨create_http_client_async env T (d.getD false), cache,
            probed ++ [⟨url, T, d.getD false⟩], k + 1⟩ := by
  rcases T with _ | _ | _ <;> rcases c with _ | _ <;> rcases d with _ | x <;>
    simp_all [specTransition, sync_step, async_step]

theorem C4_transition_table_witness :
    sync_step ⟨none, true, true⟩ (fun _ => .errRequest) "https://w4" "https://w4"
        ⟨.NativeTls, false, none, none, 0, ⟨[], []⟩, []⟩ =
      .retry ⟨.Rustls, false, some true, none, 1, ⟨[], []⟩,
        [⟨"https://w4", .NativeTls, false⟩]⟩ ∧
    async_step ⟨none, true, true⟩ (fun _ => .errRequest) "https://w4" "https://w4"
        ⟨.NativeTls, false, none, none, 0, ⟨[], []⟩, []⟩ =
      .retry ⟨.Rustls, false, some true, none, 1, ⟨[], []⟩,
        [⟨"https://w4", .NativeTls, false⟩]⟩ :=
  C4_transition_table ⟨none, true, true⟩ (fun _ => .errRequest) "https://w4"
    "https://w4" .NativeTls false none none 0 ⟨[], []⟩ [] rfl rfl

/-- **C5**: for every URL and every sequence of probe outcomes, one call
to either public entry point performs at most 2 build-and-probe cycles
and always terminates: the loop's result is already fuel-independent at
two units of fuel (so the Rust recursion, whose depth the fuel bounds,
terminates from every state reachable from the public entry points), and
at most two probes are recorded. -/
theorem C5_bounded_termination (f : Nat) (env : Env) (outs : Nat → ProbeOutcome)
    (url : String) (cache : TlsCache) :
    create_http_client_with_url env outs (f + 2) url cache =
      create_http_client_with_url env outs 2 url cache ∧
    (create_http_client_with_url env outs (f + 2) url cache).probes.length ≤ 2 ∧
    create_http_client_async_with_url env outs (f + 2) url cache =
      create_http_client_async_with_url env outs 2 url cache ∧
    (create_http_client_async_with_url env outs (f + 2) url cache).probes.length ≤ 2 := by
  have hTc : (get_cached_tls_type cache (get_url_for_tls url env.socks)).isSome = false →
      (get_cached_tls_type cache (get_url_for_tls url env.socks)).getD .NativeTls =
        .NativeTls := by
    cases htt : get_cached_tls_type cache (get_url_for_tls url env.socks) <;> simp [htt]
  have hs := sync_entry_bound env outs url (get_url_for_tls url env.socks) f
    ((get_cached_tls_type cache (get_url_for_tls url env.socks)).getD .NativeTls)
    (get_cached_tls_type cache (get_url_for_tls url env.socks)).isSome
    (get_cached_tls_accept_invalid_cert cache (get_url_for_tls url env.socks))
    0 cache [] hTc
  have ha := async_entry_bound env outs url (get_url_for_tls url env.socks) f
    ((get_cached_tls_type cache (get_url_for_tls url env.socks)).getD .NativeTls)
    (get_cached_tls_type cache (get_url_for_tls url env.socks)).isSome
    (get_cached_tls_accept_invalid_cert cache (get_url_for_tls url env.socks))
    0 cache [] hTc
  exact ⟨hs.1, by simpa using hs.2, ha.1, by simpa using ha.2⟩

/-- **C6**: for every URL whose canonical key has both a cached TLS
backend and a cached certificate-validation mode, both entry points issue
zero probes, leave the cache unchanged, consume no probe outcomes, and
return a client built from exactly the cached `(backend, certMode)`
pair. -/
theorem C6_fast_path (f : Nat) (env : Env) (outs : Nat → ProbeOutcome)
    (url : String) (cache : TlsCache) (T : TlsType) (b : Bool)
    (h1 : get_cached_tls_type cache (get_url_for_tls url env.socks) = some T)
    (h2 : get_cached_tls_accept_invalid_cert cache (get_url_for_tls url env.socks) =
      some b) :
    create_http_client_with_url env outs (f + 1) url cache =
      ⟨create_http_client env T b, cache, [], 0⟩ ∧
    create_http_client_async_with_url env outs (f + 1) url cache =
      ⟨create_http_client_async env T b, cache, [], 0⟩ := by
  rw [sync_entry_eq, async_entry_eq, h1, h2]
  constructor <;> simp [orchRun, sync_step, async_step]

theorem C6_fast_path_witness :
    create_http_client_with_url ⟨none, true, true⟩ (fun _ => .errRequest) 2 "https://w6"
        ⟨[("https://w6", .Rustls)], [("https://w6", true)]⟩ =
      ⟨create_http_client ⟨none, true, true⟩ .Rustls true,
        ⟨[("https://w6", .Rustls)], [("https://w6", true)]⟩, [], 0⟩ ∧
    create_http_client_async_with_url ⟨none, true, true⟩ (fun _ => .errRequest) 2 "https://w6"
        ⟨[("https://w6", .Rustls)], [("https://w6", true)]⟩ =
      ⟨create_http_client_async ⟨none, true, true⟩ .Rustls true,
        ⟨[("https://w6", .Rustls)], [("https://w6", true)]⟩, [], 0⟩ :=
  C6_fast_path 1 ⟨none, true, true⟩ (fun _ => .errRequest) "https://w6"
    ⟨[("https://w6", .Rustls)], [("https://w6", true)]⟩ .Rustls true
    (by decide) (by decide)

/-- **C3 (amended)**: an OtherFailure (non-request-class probe error) at
*any* probe — i.e. at any recursion level, from any state outside the
trust-the-cache fast path — ends the whole remaining blocking call right
there: no fallback transition is taken, nothing is written to the cache,
exactly the one probe is performed, and the client already built for the
current configuration is returned, for every amount of remaining fuel.
The suspending orchestrator instead consults the transition table on
that same OtherFailure outcome, exactly as it would on a ConnectFailure
(the async source lacks the `is_request()` guard) — so for it the
original claim is false, see the counterexample. -/
theorem C3_amended_other_failure (env : Env) (outs : Nat → ProbeOutcome)
    (url tls_url : String) (fuel : Nat) (T : TlsType) (c : Bool)
    (d g : Option Bool) (k : Nat) (cache : TlsCache) (probed : List Probe)
    (hfp : (c && g.isSome) = false) (houts : outs k = .errOther) :
    orchRun (sync_step env outs url tls_url) (fuel + 1)
        ⟨T, c, d, g, k, cache, probed⟩ =
      ⟨create_http_client env T (d.getD false), cache,
        probed ++ [⟨url, T, d.getD false⟩], k + 1⟩ ∧
    (match specTransition T c d g with
     | some (T', d') =>
         async_step env outs url tls_url ⟨T, c, d, g, k, cache, probed⟩ =
           .retry ⟨T', c, d', g, k + 1, cache, probed ++ [⟨url, T, d.getD false⟩]⟩
     | none =>
         async_step env outs url tls_url ⟨T, c, d, g, k, cache, probed⟩ =
           .done ⟨create_http_client_async env T (d.getD false), cache,
             probed ++ [⟨url, T, d.getD false⟩], k + 1⟩) := by
  constructor
  · simp [orchRun, sync_step, hfp, houts]
  · rcases T with _ | _ | _ <;> rcases c with _ | _ <;> rcases d with _ | x <;>
      simp_all [specTransition, async_step]

theorem C3_amended_other_failure_witness :
    orchRun (sync_step ⟨none, true, true⟩
        (fun k => if k = 0 then .errRequest else .errOther) "https://w3" "https://w3")
        2 ⟨.Rustls, false, some true, none, 1, ⟨[], []⟩,
          [⟨"https://w3", .NativeTls, false⟩]⟩ =
      ⟨create_http_client ⟨none, true, true⟩ .Rustls true, ⟨[], []⟩,
        [⟨"https://w3", .NativeTls, false⟩, ⟨"https://w3", .Rustls, true⟩], 2⟩ ∧
    async_step ⟨none, true, true⟩
        (fun k => if k = 0 then .errRequest else .errOther) "https://w3" "https://w3"
        ⟨.Rustls, false, some true, none, 1, ⟨[], []⟩,
          [⟨"https://w3", .NativeTls, false⟩]⟩ =
      .done ⟨create_http_client_async ⟨none, true, true⟩ .Rustls true, ⟨[], []⟩,
        [⟨"https://w3", .NativeTls, false⟩, ⟨"https://w3", .Rustls, true⟩], 2⟩ :=
  C3_amended_other_failure ⟨none, true, true⟩
    (fun k => if k = 0 then .errRequest else .errOther) "https://w3" "https://w3"
    1 .Rustls false (some true) none 1 ⟨[], []⟩
    [⟨"https://w3", .NativeTls, false⟩] rfl rfl

/-- **C3 counterexample**: in the suspending orchestrator an OtherFailure
does *not* stop the call: starting from a fresh cache with outcomes
`[errOther, success]`, the async entry point performs a second probe (a
fallback transition) and writes the cache — falsifying the claim that an
OtherFailure "performs no fallback transition, writes nothing to the
cache". -/
theorem C3_counterexample :
    (fun k => if k = 0 then ProbeOutcome.errOther else ProbeOutcome.success) 0 =
      ProbeOutcome.errOther ∧
    (create_http_client_async_with_url ⟨none, true, true⟩
        (fun k => if k = 0 then .errOther else .success) 2 "https://d"
        ⟨[], []⟩).probes.length = 2 ∧
    (create_http_client_async_with_url ⟨none, true, true⟩
        (fun k => if k = 0 then .errOther else .success) 2 "https://d"
        ⟨[], []⟩).cache ≠ ⟨[], []⟩ := by
  refine ⟨rfl, ?_, ?_⟩ <;> decide

/-- **C1 (amended)**: whenever a call through a public entry point writes
the cache, it pushes, for the canonical URL, the backend of the last
(successful) probe, and the returned client is the client built for that
probe.  The *suspending* orchestrator also caches that probe's
accept-invalid-cert mode — the mode actually used to build the probed
client — but the *blocking* orchestrator instead caches the
certificate-mode entry that was cached before the call began
(`unwrap_or(false)`); in particular, after the fallback
`(PrimaryStack, absent) → (PortableStack, true)` whose probe succeeds,
the async variant caches `true` and the sync variant caches `false`. -/
theorem C1_amended_success_cache (f : Nat) (env : Env) (outs : Nat → ProbeOutcome)
    (url : String) (cache : TlsCache) :
    ((create_http_client_with_url env outs f url cache).cache = cache ∨
      ∃ p, (create_http_client_with_url env outs f url cache).probes.getLast? = some p ∧
        (create_http_client_with_url env outs f url cache).cache =
          ⟨(get_url_for_tls url env.socks, p.tlsType) :: cache.tlsType,
           (get_url_for_tls url env.socks,
             (get_cached_tls_accept_invalid_cert cache
               (get_url_for_tls url env.socks)).getD false) :: cache.acceptInvalid⟩ ∧
        (create_http_client_with_url env outs f url cache).client =
          create_http_client env p.tlsType p.danger) ∧
    ((create_http_client_async_with_url env outs f url cache).cache = cache ∨
      ∃ p, (create_http_client_async_with_url env outs f url cache).probes.getLast? =
          some p ∧
        (create_http_client_async_with_url env outs f url cache).cache =
          ⟨(get_url_for_tls url env.socks, p.tlsType) :: cache.tlsType,
           (get_url_for_tls url env.socks, p.danger) :: cache.acceptInvalid⟩ ∧
        (create_http_client_async_with_url env outs f url cache).client =
          create_http_client_async env p.tlsType p.danger) := by
  constructor
  · rw [sync_entry_eq]
    exact sync_run_cache env outs url (get_url_for_tls url env.socks) f _
  · rw [async_entry_eq]
    exact async_run_cache env outs url (get_url_for_tls url env.socks) f _

/-- **C1 counterexample**: fresh cache, outcomes `[ConnectFailure,
Success]`.  The blocking orchestrator falls back from
`(NativeTls, absent)` to `(Rustls, accept-invalid = true)` — the last
probe's client is built with mode `true` — yet the cached
certificate-validation mode ends up `false`, not `true` as the claim
("the certificate-validation mode actually used to build that client";
"the cached certMode is true") requires. -/
theorem C1_counterexample :
    (create_http_client_with_url ⟨none, true, true⟩
        (fun k => if k = 0 then .errRequest else .success) 2 "https://a"
        ⟨[], []⟩).probes.getLast? = some ⟨"https://a", .Rustls, true⟩ ∧
    get_cached_tls_accept_invalid_cert
        (create_http_client_with_url ⟨none, true, true⟩
          (fun k => if k = 0 then .errRequest else .success) 2 "https://a"
          ⟨[], []⟩).cache "https://a" = some false ∧
    ¬ get_cached_tls_accept_invalid_cert
        (create_http_client_with_url ⟨none, true, true⟩
          (fun k => if k = 0 then .errRequest else .success) 2 "https://a"
          ⟨[], []⟩).cache "https://a" = some true := by
  refine ⟨?_, ?_, ?_⟩ <;> decide

/-- **C2 (amended)**: when every probe failure is request-class (no
OtherFailure occurs), the blocking and suspending entry points take the
same fallback transitions — same probes, in the same order, with the same
configurations — return the same client configuration, and write the same
backend cache entries; the claim's full statement fails (see the
counterexample) because an OtherFailure stops only the blocking variant,
and because a successful probe's certificate-mode write differs between
the two variants. -/
theorem C2_amended_sync_async (f : Nat) (env : Env) (outs : Nat → ProbeOutcome)
    (url : String) (cache : TlsCache) (h : ∀ j, outs j ≠ .errOther) :
    (create_http_client_with_url env outs f url cache).client =
      (create_http_client_async_with_url env outs f url cache).client ∧
    (create_http_client_with_url env outs f url cache).probes =
      (create_http_client_async_with_url env outs f url cache).probes ∧
    (create_http_client_with_url env outs f url cache).next =
      (create_http_client_async_with_url env outs f url cache).next ∧
    (create_http_client_with_url env outs f url cache).cache.tlsType =
      (create_http_client_async_with_url env outs f url cache).cache.tlsType := by
  rw [sync_entry_eq, async_entry_eq]
  exact sync_async_agree env outs url (get_url_for_tls url env.socks) h f _

theorem C2_amended_sync_async_witness :
    (create_http_client_with_url ⟨none, true, true⟩ (fun _ => .errRequest) 2 "https://w2"
        ⟨[], []⟩).probes =
      (create_http_client_async_with_url ⟨none, true, true⟩ (fun _ => .errRequest) 2
        "https://w2" ⟨[], []⟩).probes :=
  (C2_amended_sync_async 2 ⟨none, true, true⟩ (fun _ => .errRequest) "https://w2"
    ⟨[], []⟩ (fun _ h => ProbeOutcome.noConfusion h)).2.1

/-- **C2 counterexample**: two divergences between the orchestrators on
identical outcome sequences.  With every probe failing with an
OtherFailure the blocking variant probes once while the suspending one
probes twice (different fallback transitions); with outcomes
`[ConnectFailure, Success]` both succeed after the same fallback but the
blocking variant caches certificate mode `false` while the suspending one
caches `true` (different cache-write values). -/
theorem C2_counterexample :
    (create_http_client_with_url ⟨none, true, true⟩ (fun _ => .errOther) 2 "https://c"
        ⟨[], []⟩).probes.length = 1 ∧
    (create_http_client_async_with_url ⟨none, true, true⟩ (fun _ => .errOther) 2
        "https://c" ⟨[], []⟩).probes.length = 2 ∧
    (create_http_client_with_url ⟨none, true, true⟩
        (fun k => if k = 0 then .errRequest else .success) 2 "https://c2"
        ⟨[], []⟩).cache.acceptInvalid = [("https://c2", false)] ∧
    (create_http_client_async_with_url ⟨none, true, true⟩
        (fun k => if k = 0 then .errRequest else .success) 2 "https://c2"
        ⟨[], []⟩).cache.acceptInvalid = [("https://c2", true)] := by
  refine ⟨?_, ?_, ?_, ?_⟩ <;> decide

/-- **C10 (amended)**: for both entry points, either the cache is left
exactly as found, or one backend entry and one certificate-mode entry for
the canonical URL are pushed together in the same call; and if no probe
outcome consumed by the call is a success, both cache maps are left
unchanged.  The claim's further statement that a call in which an
OtherFailure occurs never writes the cache holds for the blocking variant
but fails for the suspending one (see the counterexample), where an
OtherFailure can be followed in the same call by a successful probe that
does write. -/
theorem C10_amended_frame (f : Nat) (env : Env) (outs : Nat → ProbeOutcome)
    (url : String) (cache : TlsCache) :
    ((create_http_client_with_url env outs f url cache).cache = cache ∨
      ∃ T b, (create_http_client_with_url env outs f url cache).cache =
        ⟨(get_url_for_tls url env.socks, T) :: cache.tlsType,
         (get_url_for_tls url env.socks, b) :: cache.acceptInvalid⟩) ∧
    ((∀ j, j < (create_http_client_with_url env outs f url cache).next →
        outs j ≠ .success) →
      (create_http_client_with_url env outs f url cache).cache = cache) ∧
    ((create_http_client_async_with_url env outs f url cache).cache = cache ∨
      ∃ T b, (create_http_client_async_with_url env outs f url cache).cache =
        ⟨(get_url_for_tls url env.socks, T) :: cache.tlsType,
         (get_url_for_tls url env.socks, b) :: cache.acceptInvalid⟩) ∧
    ((∀ j, j < (create_http_client_async_with_url env outs f url cache).next →
        outs j ≠ .success) →
      (create_http_client_async_with_url env outs f url cache).cache = cache) := by
  refine ⟨?_, ?_, ?_, ?_⟩
  · rw [sync_entry_eq]
    rcases sync_run_cache env outs url (get_url_for_tls url env.socks) f
      ⟨(get_cached_tls_type cache (get_url_for_tls url env.socks)).getD .NativeTls,
       (get_cached_tls_type cache (get_url_for_tls url env.socks)).isSome,
       get_cached_tls_accept_invalid_cert cache (get_url_for_tls url env.socks),
       get_cached_tls_accept_invalid_cert cache (get_url_for_tls url env.socks),
       0, cache, []⟩ with hc | ⟨p, _, hc, _⟩
    · exact Or.inl hc
    · exact Or.inr ⟨p.tlsType, _, hc⟩
  · rw [sync_entry_eq]
    intro h
    exact sync_run_nosuccess env outs url (get_url_for_tls url env.socks) f _
      (fun j _ hj => h j hj)
  · rw [async_entry_eq]
    rcases async_run_cache env outs url (get_url_for_tls url env.socks) f
      ⟨(get_cached_tls_type cache (get_url_for_tls url env.socks)).getD .NativeTls,
       (get_cached_tls_type cache (get_url_for_tls url env.socks)).isSome,
       get_cached_tls_accept_invalid_cert cache (get_url_for_tls url env.socks),
       get_cached_tls_accept_invalid_cert cache (get_url_for_tls url env.socks),
       0, cache, []⟩ with hc | ⟨p, _, hc, _⟩
    · exact Or.inl hc
    · exact Or.inr ⟨p.tlsType, p.danger, hc⟩
  · rw [async_entry_eq]
    intro h
    exact async_run_nosuccess env outs url (get_url_for_tls url env.socks) f _
      (fun j _ hj => h j hj)

theorem C10_amended_frame_witness :
    (create_http_client_with_url ⟨none, true, true⟩ (fun _ => .errRequest) 2
        "https://w10" ⟨[], []⟩).cache = ⟨[], []⟩ :=
  (C10_amended_frame 2 ⟨none, true, true⟩ (fun _ => .errRequest) "https://w10"
    ⟨[], []⟩).2.1 (fun _ _ h => ProbeOutcome.noConfusion h)

/-- **C10 counterexample**: in the suspending orchestrator a call in
which an OtherFailure occurs can still write the cache: with outcomes
`[errOther, success]` from a fresh cache, both maps end up written —
falsifying "on every failure path — …, or an OtherFailure — both cache
maps are left unchanged". -/
theorem C10_counterexample :
    (fun k => if k = 0 then ProbeOutcome.errOther else ProbeOutcome.success) 0 =
      ProbeOutcome.errOther ∧
    (create_http_client_async_with_url ⟨none, true, true⟩
        (fun k => if k = 0 then .errOther else .success) 2 "https://e"
        ⟨[], []⟩).cache.acceptInvalid = [("https://e", true)] ∧
    (create_http_client_async_with_url ⟨none, true, true⟩
        (fun k => if k = 0 then .errOther else .success) 2 "https://e"
        ⟨[], []⟩).cache.tlsType = [("https://e", .Rustls)] := by
  refine ⟨rfl, ?_, ?_⟩ <;> decide

/-- **C7 (amended)**: the canonical TLS key — the proxy's URL when the
target URL is plain and the configured proxy URL starts with `https://`,
the original URL in every other configuration — is the key for cache
writes (and for the cache reads of the entry point, which read only at
this key by definition), but the probe HEAD requests are sent to the
*original* URL, not to the canonical key as the claim states (see the
counterexample). -/
theorem C7_amended_url_canonicalization (f : Nat) (env : Env)
    (outs : Nat → ProbeOutcome) (url : String) (cache : TlsCache) :
    (∀ p ∈ (create_http_client_with_url env outs f url cache).probes, p.url = url) ∧
    ((create_http_client_with_url env outs f url cache).cache.tlsType =
        cache.tlsType ∨
      ∃ T, (create_http_client_with_url env outs f url cache).cache.tlsType =
        (get_url_for_tls url env.socks, T) :: cache.tlsType) ∧
    ((create_http_client_with_url env outs f url cache).cache.acceptInvalid =
        cache.acceptInvalid ∨
      ∃ b, (create_http_client_with_url env outs f url cache).cache.acceptInvalid =
        (get_url_for_tls url env.socks, b) :: cache.acceptInvalid) ∧
    (∀ conf, env.socks = some conf → is_plain url = true →
      starts_with conf.proxy "https://" = true →
      get_url_for_tls url env.socks = conf.proxy) ∧
    (∀ conf, env.socks = some conf → starts_with conf.proxy "https://" = false →
      get_url_for_tls url env.socks = url) ∧
    (is_plain url = false → get_url_for_tls url env.socks = url) ∧
    (env.socks = none → get_url_for_tls url env.socks = url) := by
  refine ⟨?_, ?_, ?_, ?_, ?_, ?_, ?_⟩
  · intro p hp
    rw [sync_entry_eq] at hp
    rcases sync_run_probe_urls env outs url (get_url_for_tls url env.socks) f
      ⟨(get_cached_tls_type cache (get_url_for_tls url env.socks)).getD .NativeTls,
       (get_cached_tls_type cache (get_url_for_tls url env.socks)).isSome,
       get_cached_tls_accept_invalid_cert cache (get_url_for_tls url env.socks),
       get_cached_tls_accept_invalid_cert cache (get_url_for_tls url env.socks),
       0, cache, []⟩ p hp with h | h
    · exact h
    · simp at h
  · rw [sync_entry_eq]
    rcases sync_run_cache env outs url (get_url_for_tls url env.socks) f
      ⟨(get_cached_tls_type cache (get_url_for_tls url env.socks)).getD .NativeTls,
       (get_cached_tls_type cache (get_url_for_tls url env.socks)).isSome,
       get_cached_tls_accept_invalid_cert cache (get_url_for_tls url env.socks),
       get_cached_tls_accept_invalid_cert cache (get_url_for_tls url env.socks),
       0, cache, []⟩ with hc | ⟨p, _, hc, _⟩
    · exact Or.inl (congrArg TlsCache.tlsType hc)
    · exact Or.inr ⟨p.tlsType, congrArg TlsCache.tlsType hc⟩
  · rw [sync_entry_eq]
    rcases sync_run_cache env outs url (get_url_for_tls url env.socks) f
      ⟨(get_cached_tls_type cache (get_url_for_tls url env.socks)).getD .NativeTls,
       (get_cached_tls_type cache (get_url_for_tls url env.socks)).isSome,
       get_cached_tls_accept_invalid_cert cache (get_url_for_tls url env.socks),
       get_cached_tls_accept_invalid_cert cache (get_url_for_tls url env.socks),
       0, cache, []⟩ with hc | ⟨p, _, hc, _⟩
    · exact Or.inl (congrArg TlsCache.acceptInvalid hc)
    · exact Or.inr ⟨_, congrArg TlsCache.acceptInvalid hc⟩
  · intro conf hconf hplain hpfx
    simp [get_url_for_tls, hconf, hplain, hpfx]
  · intro conf hconf hpfx
    simp [get_url_for_tls, hconf, hpfx]
  · intro h
    simp [get_url_for_tls, h]
  · intro h
    simp [get_url_for_tls, h]

theorem C7_amended_url_canonicalization_witness :
    get_url_for_tls "http://w7" (some ⟨"https://w7p", none⟩) = "https://w7p" ∧
    (⟨"http://w7", TlsType.NativeTls, false⟩ : Probe).url = "http://w7" :=
  ⟨(C7_amended_url_canonicalization 2 ⟨some ⟨"https://w7p", none⟩, true, true⟩
      (fun _ => .success) "http://w7" ⟨[], []⟩).2.2.2.1 ⟨"https://w7p", none⟩ rfl
      (by decide) (by decide),
   (C7_amended_url_canonicalization 2 ⟨some ⟨"https://w7p", none⟩, true, true⟩
      (fun _ => .success) "http://w7" ⟨[], []⟩).1 ⟨"http://w7", .NativeTls, false⟩
      (by decide)⟩

/-- **C7 counterexample**: URL `http://example.com` with configured proxy
`https://proxy.example:443`.  The cache write lands under the proxy URL,
but the probe HEAD request is sent to `http://example.com` — the original
URL — falsifying the claim that the proxy's URL is "the key used for …
the probe request". -/
theorem C7_counterexample :
    (create_http_client_with_url
        ⟨some ⟨"https://proxy.example:443", none⟩, true, true⟩ (fun _ => .success) 2
        "http://example.com" ⟨[], []⟩).probes =
      [⟨"http://example.com", .NativeTls, false⟩] ∧
    (create_http_client_with_url
        ⟨some ⟨"https://proxy.example:443", none⟩, true, true⟩ (fun _ => .success) 2
        "http://example.com" ⟨[], []⟩).cache.tlsType =
      [("https://proxy.example:443", .NativeTls)] ∧
    "http://example.com" ≠ "https://proxy.example:443" := by
  refine ⟨?_, ?_, ?_⟩ <;> decide

/-- **C8**: the proxy target string handed to `reqwest::Proxy::all` is
`http://host` / `https://host` for the HTTP/HTTPS schemes and
`socks5://addr` for SOCKS5, and (when proxy setup and the build succeed,
so the configured builder's client is the one returned) a
proxy-authorization header with a Basic value is attached if and only if
credentials are present. -/
theorem C8_proxy_target (T : TlsType) (dg : Bool) (pstr : String)
    (sch : ProxyScheme) (env : Env)
    (hs : env.socks = some ⟨pstr, some sch⟩)
    (hp : env.proxyAllOk = true) (hb : env.buildOk = true) :
    (create_http_client env T dg).proxy =
      some (match sch with
        | .Http host _ => "http://" ++ host
        | .Https host _ => "https://" ++ host
        | .Socks5 addr _ => "socks5://" ++ addr) ∧
    (create_http_client env T dg).proxyAuthHeader.isSome = sch.maybe_auth.isSome ∧
    (∀ payload, sch.maybe_auth = some payload →
      (create_http_client env T dg).proxyAuthHeader = some ("Basic " ++ payload)) := by
  obtain ⟨so, pa, bo⟩ := env
  simp only at hs hp hb
  subst hs hp hb
  rcases sch with ⟨h, a⟩ | ⟨h, a⟩ | ⟨h, a⟩ <;> rcases a with _ | payload <;>
    rcases T with _ | _ | _ <;> rcases dg with _ | _ <;>
      refine ⟨?_, ?_, ?_⟩ <;>
        simp [create_http_client, configure_http_client, ProxyScheme.maybe_auth,
          Client.new]

theorem C8_proxy_target_witness :
    (create_http_client
        ⟨some ⟨"socks5://127.0.0.1:1080", some (.Socks5 "127.0.0.1:1080" none)⟩,
          true, true⟩ .NativeTls false).proxy = some "socks5://127.0.0.1:1080" ∧
    (create_http_client
        ⟨some ⟨"socks5://127.0.0.1:1080", some (.Socks5 "127.0.0.1:1080" none)⟩,
          true, true⟩ .NativeTls false).proxyAuthHeader.isSome = false :=
  ⟨(C8_proxy_target .NativeTls false "socks5://127.0.0.1:1080"
      (.Socks5 "127.0.0.1:1080" none) _ rfl rfl rfl).1,
   (C8_proxy_target .NativeTls false "socks5://127.0.0.1:1080"
      (.Socks5 "127.0.0.1:1080" none) _ rfl rfl rfl).2.1⟩

/-- **C9 (amended)**: the builder never fails outwardly — it is a total
function to a client, the async and blocking builders apply the identical
configuration, and on any proxy-resolution, proxy-setup or build failure
the reqwest *default* client is returned instead of an error.  The
claim's statement that the built client always has environment-inherited
proxy auto-detection disabled fails on exactly those fallback paths: the
default client is built without the `no_proxy()` opt-out (see the
counterexample). -/
theorem C9_amended_builder_fallback (env : Env) (T : TlsType) (dg : Bool) :
    create_http_client_async env T dg = create_http_client env T dg ∧
    ((create_http_client env T dg).noProxy = true ∨
      create_http_client env T dg = Client.new) ∧
    (env.buildOk = false → create_http_client env T dg = Client.new) ∧
    (∀ conf, env.socks = some conf → conf.parsed = none →
      create_http_client env T dg = Client.new) ∧
    (∀ conf, env.socks = some conf → env.proxyAllOk = false →
      create_http_client env T dg = Client.new) := by
  obtain ⟨so, pa, bo⟩ := env
  rcases so with _ | ⟨pstr, _ | sch⟩
  · rcases bo with _ | _ <;> rcases T with _ | _ | _ <;> rcases dg with _ | _ <;>
      refine ⟨rfl, ?_, ?_, ?_, ?_⟩ <;>
        simp [create_http_client, create_http_client_async, configure_http_client,
          Client.new]
  · refine ⟨rfl, ?_, ?_, ?_, ?_⟩ <;>
      simp [create_http_client, create_http_client_async, configure_http_client,
        Client.new]
  · rcases sch with ⟨h, _ | payload⟩ | ⟨h, _ | payload⟩ | ⟨h, _ | payload⟩ <;>
      rcases pa with _ | _ <;> rcases bo with _ | _ <;>
        rcases T with _ | _ | _ <;> rcases dg with _ | _ <;>
          refine ⟨rfl, ?_, ?_, ?_, ?_⟩ <;>
            simp [create_http_client, create_http_client_async,
              configure_http_client, Client.new, ProxyScheme.maybe_auth]

theorem C9_amended_builder_fallback_witness :
    create_http_client ⟨none, true, false⟩ .NativeTls false = Client.new :=
  (C9_amended_builder_fallback ⟨none, true, false⟩ .NativeTls false).2.2.1 rfl

/-- **C9 counterexample**: when client construction fails (here the
builder's `build()`), the returned client is the reqwest default client,
which does *not* carry the `no_proxy()` opt-out — falsifying the claim
that "the built client has environment-inherited proxy auto-detection
disabled" on every input. -/
theorem C9_counterexample :
    (create_http_client ⟨none, true, false⟩ .NativeTls false).noProxy = false ∧
    ¬ (create_http_client ⟨none, true, false⟩ .NativeTls false).noProxy = true ∧
    (create_http_client ⟨none, true, false⟩ .NativeTls false).proxy = none := by
  refine ⟨?_, ?_, ?_⟩ <;> decide

end HttpClient
